import Mathlib

/-
Verification of the lifecycle state machine and daily-run orchestrator
specification of this repository.

The repository's src/ holds only the HTTP test clients
(backend_test.py, backend_test_daily_run.py); the backend they exercise
(the Lifecycle State Machine and Daily Run Orchestrator) is not part of
src/.  Definitions for those components are therefore modelled from the
spec (each marked `Modelled from the spec:`), while the test-harness
classes FractalAPITester / main are embedded directly from
src/backend_test.py.
-/

namespace LifecycleSpec

/-- Modelled from the spec: `status` enum of LifecycleState (§3),
{SIMULATION, WARMUP, APPLIED, REVOKED}. -/
inductive Status
  | SIMULATION
  | WARMUP
  | APPLIED
  | REVOKED
deriving DecidableEq, Repr

/-- Modelled from the spec: drift severity enum (§3), {OK, WARN, CRITICAL}. -/
inductive Severity
  | OK
  | WARN
  | CRITICAL
deriving DecidableEq, Repr

/-- Modelled from the spec: the LifecycleState record (§3), restricted to the
fields the lifecycle rules read or write (status, liveSamples,
driftSeverity, constitutionHash, warmupTargetDays). -/
structure LifecycleState where
  status : Status
  liveSamples : Nat
  driftSeverity : Severity
  constitutionHash : String
  warmupTargetDays : Nat
deriving DecidableEq, Repr

/-- Modelled from the spec: LifecycleEvent types emitted by the state
machine (§4.1). -/
inductive EventType
  | RESET
  | WARMUP_STARTED
  | APPLIED_EVENT
  | REVOKED_EVENT
  | AUTO_REVOKED
  | AUTO_RECOVERED
  | CONSTITUTION_CHANGED
deriving DecidableEq, Repr

/-- Modelled from the spec: `init(asset)` creates a LifecycleState at status
SIMULATION (§4.1); fresh states carry zero samples and OK drift. -/
def initState : LifecycleState :=
  ⟨Status.SIMULATION, 0, Severity.OK, "", 0⟩

/-- Modelled from the spec: the Integrity Guard's structural-validity check
(§4.3) — a state is internally inconsistent when `status == APPLIED` with
`driftSeverity == CRITICAL`, or `liveSamples > 0` while
`status == SIMULATION`. -/
def integrityValid (s : LifecycleState) : Bool :=
  !(s.status == Status.APPLIED && s.driftSeverity == Severity.CRITICAL)
    && !(s.status == Status.SIMULATION && decide (0 < s.liveSamples))

/-- Modelled from the spec: `resetSimulation` (§4.1) forces status
SIMULATION, liveSamples=0, driftSeverity=OK; always succeeds; emits RESET. -/
def resetSimulation (s : LifecycleState) : LifecycleState × List EventType :=
  ({ s with status := Status.SIMULATION, liveSamples := 0,
            driftSeverity := Severity.OK }, [EventType.RESET])

/-- Modelled from the spec: `forceWarmup` (§4.1) forces status WARMUP
regardless of current status, liveSamples=0, records warmupTargetDays;
emits WARMUP_STARTED. -/
def forceWarmup (s : LifecycleState) (targetDays : Nat) :
    LifecycleState × List EventType :=
  ({ s with status := Status.WARMUP, liveSamples := 0,
            warmupTargetDays := targetDays }, [EventType.WARMUP_STARTED])

/-- Modelled from the spec: result of `forceApply` (§4.1): the new state, a
`blocked` flag (a rejected force-apply is a normal reportable outcome), and
the emitted events. -/
structure ApplyResult where
  state : LifecycleState
  blocked : Bool
  events : List EventType
deriving DecidableEq, Repr

/-- Modelled from the spec: `forceApply` (§4.1) attempts status → APPLIED and
fails (does not transition) if the Integrity Guard reports the state
structurally invalid; since the machine never leaves a state where APPLIED
and CRITICAL hold simultaneously (§3 invariant), the guard's verdict is taken
on the state the transition would produce. -/
def forceApply (s : LifecycleState) : ApplyResult :=
  let target := { s with status := Status.APPLIED }
  if integrityValid target then
    ⟨target, false, [EventType.APPLIED_EVENT]⟩
  else
    ⟨s, true, []⟩

/-- Modelled from the spec: `revoke` (§4.1) forces status REVOKED from any
state; emits REVOKED. -/
def revoke (s : LifecycleState) : LifecycleState × List EventType :=
  ({ s with status := Status.REVOKED }, [EventType.REVOKED_EVENT])

/-- Modelled from the spec: result of `applyConstitution` (§4.1): whether a
transition occurred and the resulting state. -/
structure ConstitutionResult where
  state : LifecycleState
  applied : Bool
  events : List EventType
deriving DecidableEq, Repr

/-- Modelled from the spec: `applyConstitution` (§4.1) updates
constitutionHash; if prior `status == APPLIED`, additionally forces a
transition to WARMUP with liveSamples=0. -/
def applyConstitution (s : LifecycleState) (h : String) : ConstitutionResult :=
  if s.status == Status.APPLIED then
    ⟨{ s with constitutionHash := h, status := Status.WARMUP,
              liveSamples := 0 }, true, [EventType.CONSTITUTION_CHANGED]⟩
  else
    ⟨{ s with constitutionHash := h }, false, []⟩

/-- Modelled from the spec: result of `updateDrift` (§4.1): the new state,
whether an auto-revoke or auto-recovery occurred, and the emitted events. -/
structure DriftResult where
  state : LifecycleState
  revoked : Bool
  recovered : Bool
  events : List EventType
deriving DecidableEq, Repr

/-- Modelled from the spec: `updateDrift` (§4.1) updates driftSeverity with
side effects in this order: CRITICAL while APPLIED auto-revokes (emits
AUTO_REVOKED); else OK while REVOKED auto-recovers to WARMUP with
liveSamples=0 (emits AUTO_RECOVERED); otherwise only driftSeverity changes. -/
def updateDrift (s : LifecycleState) (sev : Severity) : DriftResult :=
  if sev == Severity.CRITICAL && s.status == Status.APPLIED then
    ⟨{ s with status := Status.REVOKED, driftSeverity := sev },
      true, false, [EventType.AUTO_REVOKED]⟩
  else if sev == Severity.OK && s.status == Status.REVOKED then
    ⟨{ s with status := Status.WARMUP, liveSamples := 0,
              driftSeverity := sev },
      false, true, [EventType.AUTO_RECOVERED]⟩
  else
    ⟨{ s with driftSeverity := sev }, false, false, []⟩

/-- Modelled from the spec: the default promotion threshold (§4.1, promotion
rule: default 30). -/
def promotionThreshold : Nat := 30

/-- Modelled from the spec: the promotion rule (§4.1): a WARMUP model
promotes to APPLIED iff `liveSamples >= promotionThreshold` AND
`driftSeverity != CRITICAL` AND the Integrity Guard reports the state
valid. -/
def promotionEligible (s : LifecycleState) : Bool :=
  s.status == Status.WARMUP
    && decide (promotionThreshold ≤ s.liveSamples)
    && s.driftSeverity != Severity.CRITICAL
    && integrityValid s

/-- Modelled from the spec: result of `incrementSamples` (§4.1): the new
state, the new liveSamples, whether promotion occurred, and events. -/
structure SamplesResult where
  state : LifecycleState
  liveSamples : Nat
  promoted : Bool
  events : List EventType
deriving DecidableEq, Repr

/-- Modelled from the spec: `incrementSamples` (§4.1) is valid only while
`status == WARMUP` with count ≥ 1; it adds count to liveSamples and then
evaluates auto-promotion by the promotion rule. -/
def incrementSamples (s : LifecycleState) (count : Nat) : SamplesResult :=
  if s.status == Status.WARMUP && decide (1 ≤ count) then
    let bumped := { s with liveSamples := s.liveSamples + count }
    if promotionEligible bumped then
      ⟨{ bumped with status := Status.APPLIED }, bumped.liveSamples,
        true, [EventType.APPLIED_EVENT]⟩
    else
      ⟨bumped, bumped.liveSamples, false, []⟩
  else
    ⟨s, s.liveSamples, false, []⟩

/-- Modelled from the spec: the public lifecycle operations (§4.1), as the
alphabet of the state machine's reachability relation. -/
inductive Op
  | reset
  | warmup (targetDays : Nat)
  | tryApply
  | doRevoke
  | constitution (h : String)
  | drift (sev : Severity)
  | samples (count : Nat)

/-- Modelled from the spec: the state reached by one lifecycle operation. -/
def applyOp (s : LifecycleState) : Op → LifecycleState
  | Op.reset => (resetSimulation s).1
  | Op.warmup d => (forceWarmup s d).1
  | Op.tryApply => (forceApply s).state
  | Op.doRevoke => (revoke s).1
  | Op.constitution h => (applyConstitution s h).state
  | Op.drift sev => (updateDrift s sev).state
  | Op.samples n => (incrementSamples s n).state

/-- Modelled from the spec: the states reachable from a freshly initialized
asset by any sequence of lifecycle operations. -/
inductive Reachable : LifecycleState → Prop
  | base : Reachable initState
  | step (s : LifecycleState) (op : Op) : Reachable s → Reachable (applyOp s op)

/-- The APPLIED/CRITICAL incompatibility invariant (§3). -/
def driftInvariant (s : LifecycleState) : Prop :=
  ¬(s.status = Status.APPLIED ∧ s.driftSeverity = Severity.CRITICAL)

/-- Modelled from the spec: one `StepResult` of the daily pipeline (§3):
name, ok flag and elapsed milliseconds (elapsed time, hence a natural
number). -/
structure StepResult where
  name : String
  ok : Bool
  ms : Nat
deriving DecidableEq, Repr

/-- Modelled from the spec: the lifecycle section of a DailyRunResult (§3):
before/after snapshots and the optional transition description. -/
structure LifecycleReport where
  before : LifecycleState
  after : LifecycleState
  transition : Option String
deriving DecidableEq, Repr

/-- Modelled from the spec: `DailyRunResult` (§3). -/
structure DailyRunResult where
  runId : Nat
  asset : String
  mode : String
  durationMs : Nat
  steps : List StepResult
  lifecycle : LifecycleReport
deriving DecidableEq, Repr

/-- Modelled from the spec: the fixed documented order of the 11 pipeline
steps (§4.4). -/
def stepNames : List String :=
  ["SNAPSHOT_WRITE", "OUTCOME_RESOLVE", "LIVE_SAMPLE_UPDATE",
   "DRIFT_CHECK", "AUTO_WARMUP", "LIFECYCLE_HOOKS", "WARMUP_PROGRESS_WRITE",
   "AUTO_PROMOTE", "INTEL_TIMELINE_WRITE", "ALERTS_DISPATCH",
   "INTEGRITY_GUARD"]

/-- Modelled from the spec: the environment a daily run observes — per-step
durations and collaborator outcomes (storage/alerting failures are step-level
errors, §6), the drift severity computed from resolved outcomes (step 4),
the day's new sample count (step 7) and whether auto-warmup conditions
warrant starting evaluation (step 5). -/
structure PipelineEnv where
  stepMs : Nat → Nat
  stepOk : Nat → Bool
  observedSeverity : Severity
  daySamples : Nat
  warmupWarranted : Bool
  warmupDays : Nat
  runId : Nat
  mode : String

/-- Display name of a status, for the transition description string. -/
def statusName : Status → String
  | Status.SIMULATION => "SIMULATION"
  | Status.WARMUP => "WARMUP"
  | Status.APPLIED => "APPLIED"
  | Status.REVOKED => "REVOKED"

/-- Modelled from the spec: the transition description string, e.g.
"WARMUP→APPLIED" (§4.4). -/
def describeTransition (a b : Status) : String :=
  statusName a ++ "→" ++ statusName b

/-- Modelled from the spec: the Integrity Guard's minimal corrective
transitions (§4.3): force REVOKED if found APPLIED with CRITICAL drift;
clear residual samples if found in SIMULATION. -/
def integrityFix (s : LifecycleState) : LifecycleState :=
  let s1 :=
    if s.status == Status.APPLIED && s.driftSeverity == Severity.CRITICAL then
      { s with status := Status.REVOKED }
    else s
  if s1.status == Status.SIMULATION && decide (0 < s1.liveSamples) then
    { s1 with liveSamples := 0 }
  else s1

/-- Modelled from the spec: the lifecycle effect of pipeline step `i` on the
current state (§4.4): steps 4 (DRIFT_CHECK), 5 (AUTO_WARMUP),
7 (WARMUP_PROGRESS_WRITE after incrementSamples), 8 (AUTO_PROMOTE) and
11 (INTEGRITY_GUARD) touch the state; the other steps delegate to external
collaborators and leave it unchanged. -/
def stepEffect (env : PipelineEnv) (i : Nat) (s : LifecycleState) :
    LifecycleState :=
  if i == 3 then (updateDrift s env.observedSeverity).state
  else if i == 4 then
    if s.status == Status.SIMULATION && env.warmupWarranted then
      (forceWarmup s env.warmupDays).1
    else s
  else if i == 6 then
    if s.status == Status.WARMUP && decide (1 ≤ env.daySamples) then
      (incrementSamples s env.daySamples).state
    else s
  else if i == 7 then
    if promotionEligible s then { s with status := Status.APPLIED } else s
  else if i == 10 then integrityFix s
  else s

/-- Modelled from the spec: fold the 11 steps in order over the lifecycle
state, collecting one StepResult per step; a step's own failure is recorded,
never aborts the remaining steps (§4.4). -/
def runSteps (env : PipelineEnv) :
    List (Nat × String) → LifecycleState → List StepResult × LifecycleState
  | [], s => ([], s)
  | (i, n) :: rest, s =>
      let tail := runSteps env rest (stepEffect env i s)
      (⟨n, env.stepOk i, env.stepMs i⟩ :: tail.1, tail.2)

/-- Modelled from the spec: `runDailyPipeline(asset)` (§4.4): capture the
before snapshot, execute the 11 named steps in fixed order, capture the
after snapshot, and set `transition` only if the status changed. -/
def runDailyPipeline (env : PipelineEnv) (asset : String)
    (s0 : LifecycleState) : DailyRunResult :=
  let indexed := (List.range stepNames.length).zip stepNames
  let out := runSteps env indexed s0
  { runId := env.runId
    asset := asset
    mode := env.mode
    durationMs := (out.1.map StepResult.ms).sum
    steps := out.1
    lifecycle :=
      { before := s0
        after := out.2
        transition :=
          if s0.status == out.2.status then none
          else some (describeTransition s0.status out.2.status) } }

/-- Modelled from the spec: the fixed enumerated set of valid asset
identifiers (§6). -/
def validAssets : List String := ["BTC", "SPX"]

/-- Modelled from the spec: the envelope of a daily-run API response:
HTTP status, ok flag and optional error message (§6, §7). -/
structure ApiResponse where
  httpStatus : Nat
  ok : Bool
  error : Option String
deriving DecidableEq, Repr

/-- Modelled from the spec: the run-now endpoint handler (§6, §7): an
unrecognized asset identifier is rejected as a validation error — HTTP 400,
ok=false, a message naming the valid assets — before any mutation of
lifecycle state; a valid asset runs the pipeline (performing `init` first if
the asset has no prior state, §4.4 edge case) and persists the after
snapshot. -/
def runNowHandler (asset : String) (env : PipelineEnv)
    (store : Option LifecycleState) :
    ApiResponse × Option LifecycleState × Option DailyRunResult :=
  if validAssets.contains asset then
    let s0 := store.getD initState
    let r := runDailyPipeline env asset s0
    (⟨200, true, none⟩, some r.lifecycle.after, some r)
  else
    (⟨400, false, some "asset must be BTC or SPX"⟩, store, none)

/-- A concrete APPLIED state, used as a witness input. -/
def appliedSample : LifecycleState :=
  ⟨Status.APPLIED, 0, Severity.OK, "c1", 30⟩

/-- A concrete REVOKED state, used as a witness input. -/
def revokedSample : LifecycleState :=
  ⟨Status.REVOKED, 0, Severity.CRITICAL, "c1", 30⟩

/-- A concrete WARMUP state, used as a witness input. -/
def warmupSample : LifecycleState :=
  ⟨Status.WARMUP, 0, Severity.OK, "c1", 30⟩

/-- The spec's auto-promotion scenario (§8): reset, forceWarmup with
targetDays 30, updateDrift OK, then five incrementSamples calls of +6 each;
the value is the result of the fifth call. -/
def warmupScenario : SamplesResult :=
  let s0 := (resetSimulation initState).1
  let s1 := (forceWarmup s0 30).1
  let s2 := (updateDrift s1 Severity.OK).state
  let r1 := incrementSamples s2 6
  let r2 := incrementSamples r1.state 6
  let r3 := incrementSamples r2.state 6
  let r4 := incrementSamples r3.state 6
  incrementSamples r4.state 6

/-- A concrete pipeline environment, used as a witness input. -/
def sampleEnv : PipelineEnv :=
  ⟨fun _ => 5, fun _ => true, Severity.OK, 3, true, 30, 1, "daily"⟩

end LifecycleSpec

namespace BackendTestPy

/-
Embedding of src/backend_test.py (the Python test harness itself): the
module's global names, the FractalAPITester attribute state, log_result,
and the name lookup `main` performs.  Network calls in the test methods are
external effects; the claims below concern only name/attribute resolution
and the counters, which are embedded faithfully.
-/

/-- Python errors raised by the embedded fragments of backend_test.py. -/
inductive PyError
  | nameError (n : String)
  | attributeError (attr : String)
deriving DecidableEq, Repr

/-- The global names defined at module level in src/backend_test.py: the
imports (lines 6-9), the class FractalAPITester (line 11) and the function
main (line 471). -/
def backendTestGlobals : List String :=
  ["requests", "json", "sys", "datetime", "FractalAPITester", "main"]

/-- Python global-name resolution in the backend_test.py module: a name not
bound at module level (nor a builtin used here) raises NameError. -/
def lookupGlobal (n : String) : Except PyError String :=
  if backendTestGlobals.contains n then Except.ok n
  else Except.error (PyError.nameError n)

/-- `main` (src/backend_test.py lines 471-474): its first action evaluates
the name LifecycleAPITester to construct the tester; run_all_tests would
execute only after that constructor call, so the count of tests run before
the lookup resolves is 0. -/
def mainRun : Except PyError Nat :=
  match lookupGlobal "LifecycleAPITester" with
  | Except.error e => Except.error e
  | Except.ok _ => Except.ok 0

/-- The attribute state of a FractalAPITester instance
(src/backend_test.py lines 12-17): __init__ sets tests_run = 0,
tests_passed = 0, issues = []; no attribute failed_tests is ever assigned,
modelled as an Option that __init__ leaves at none. -/
structure TesterState where
  tests_run : Nat
  tests_passed : Nat
  issues : List String
  failed_tests : Option (List String)
deriving DecidableEq, Repr

/-- FractalAPITester.__init__ (src/backend_test.py lines 12-17). -/
def testerInit : TesterState :=
  ⟨0, 0, [], none⟩

/-- FractalAPITester.log_result (src/backend_test.py lines 19-35):
increments tests_run; if passed, increments tests_passed; otherwise appends
the test name to self.failed_tests, which raises AttributeError when that
attribute was never assigned. -/
def log_result (st : TesterState) (testName : String) (passed : Bool) :
    Except PyError TesterState :=
  let st1 : TesterState := { st with tests_run := st.tests_run + 1 }
  if passed then
    Except.ok { st1 with tests_passed := st1.tests_passed + 1 }
  else
    match st1.failed_tests with
    | none => Except.error (PyError.attributeError "failed_tests")
    | some l => Except.ok { st1 with failed_tests := some (l ++ [testName]) }

end BackendTestPy

open LifecycleSpec BackendTestPy

/-- Helper: every lifecycle operation preserves the APPLIED/CRITICAL
incompatibility invariant. -/
theorem applyOp_preserves_inv (s : LifecycleState) (op : Op)
    (h : driftInvariant s) : driftInvariant (applyOp s op) := by
  obtain ⟨st, ls, sev, hsh, days⟩ := s
  cases op <;>
    cases st <;> cases sev <;>
      simp_all [applyOp, resetSimulation, forceWarmup, forceApply, revoke,
        applyConstitution, updateDrift, incrementSamples, promotionEligible,
        integrityValid, driftInvariant] <;>
      split_ifs <;> simp_all

/-- Helper: unfolding of the promotion rule into its three spec
conditions on a WARMUP state. -/
theorem promotionEligible_eq_true_iff (s : LifecycleState) :
    promotionEligible s = true ↔
      (s.status = Status.WARMUP ∧ promotionThreshold ≤ s.liveSamples ∧
        s.driftSeverity ≠ Severity.CRITICAL ∧ integrityValid s = true) := by
  simp [promotionEligible, Bool.and_eq_true, beq_iff_eq, bne_iff_ne,
    decide_eq_true_iff]
  tauto

/-- Helper: the step-result list produced by runSteps carries the given
names in order. -/
theorem runSteps_shape (env : PipelineEnv) :
    ∀ (l : List (Nat × String)) (s : LifecycleState),
      (runSteps env l s).1.map StepResult.name = l.map Prod.snd ∧
      (runSteps env l s).1.length = l.length
  | [], _ => by simp [runSteps]
  | (i, n) :: rest, s => by
      have ih := runSteps_shape env rest (stepEffect env i s)
      simp [runSteps, ih.1, ih.2]

/-- C1: no reachable lifecycle state has status APPLIED together with
driftSeverity CRITICAL, and a CRITICAL drift observation while APPLIED
transitions to REVOKED within the same update. -/
theorem reachable_applied_not_critical (s : LifecycleState)
    (h : Reachable s) :
    ¬(s.status = Status.APPLIED ∧ s.driftSeverity = Severity.CRITICAL) ∧
    (s.status = Status.APPLIED →
      (updateDrift s Severity.CRITICAL).state.status = Status.REVOKED) := by
  constructor
  · have hinv : driftInvariant s := by
      induction h with
      | base => simp [driftInvariant, initState]
      | step s1 op _ ih => exact applyOp_preserves_inv s1 op ih
    exact hinv
  · intro hA
    simp [updateDrift, hA]

/-- Witness for C1 at the freshly initialized state. -/
theorem reachable_applied_not_critical_witness :
    ¬(initState.status = Status.APPLIED ∧
        initState.driftSeverity = Severity.CRITICAL) ∧
    (initState.status = Status.APPLIED →
      (updateDrift initState Severity.CRITICAL).state.status =
        Status.REVOKED) :=
  reachable_applied_not_critical initState Reachable.base

/-- C3: updateDrift with CRITICAL on an APPLIED state yields REVOKED,
reports revoked = true, and emits exactly one AUTO_REVOKED event. -/
theorem updateDrift_critical_applied (s : LifecycleState)
    (h : s.status = Status.APPLIED) :
    (updateDrift s Severity.CRITICAL).state.status = Status.REVOKED ∧
    (updateDrift s Severity.CRITICAL).revoked = true ∧
    (updateDrift s Severity.CRITICAL).events = [EventType.AUTO_REVOKED] := by
  simp [updateDrift, h]

/-- Witness for C3 at a concrete APPLIED state. -/
theorem updateDrift_critical_applied_witness :
    (updateDrift appliedSample Severity.CRITICAL).state.status =
      Status.REVOKED ∧
    (updateDrift appliedSample Severity.CRITICAL).revoked = true ∧
    (updateDrift appliedSample Severity.CRITICAL).events =
      [EventType.AUTO_REVOKED] :=
  updateDrift_critical_applied appliedSample rfl

/-- C4: updateDrift with OK on a REVOKED state yields WARMUP with
liveSamples 0 and emits exactly one AUTO_RECOVERED event. -/
theorem updateDrift_ok_revoked (s : LifecycleState)
    (h : s.status = Status.REVOKED) :
    (updateDrift s Severity.OK).state.status = Status.WARMUP ∧
    (updateDrift s Severity.OK).state.liveSamples = 0 ∧
    (updateDrift s Severity.OK).events = [EventType.AUTO_RECOVERED] := by
  simp [updateDrift, h]

/-- Witness for C4 at a concrete REVOKED state. -/
theorem updateDrift_ok_revoked_witness :
    (updateDrift revokedSample Severity.OK).state.status = Status.WARMUP ∧
    (updateDrift revokedSample Severity.OK).state.liveSamples = 0 ∧
    (updateDrift revokedSample Severity.OK).events =
      [EventType.AUTO_RECOVERED] :=
  updateDrift_ok_revoked revokedSample rfl

/-- C5: on a WARMUP state, incrementSamples promotes to APPLIED iff the new
sample count reaches the default threshold 30, drift is not CRITICAL, and
the Integrity Guard reports the state valid; and the spec's concrete
scenario (reset, forceWarmup 30, updateDrift OK, five +6 increments) shows
promoted = true with final status APPLIED on the fifth call. -/
theorem warmup_promotion_iff (s : LifecycleState) (n : Nat)
    (hW : s.status = Status.WARMUP) (hn : 1 ≤ n) :
    ((incrementSamples s n).state.status = Status.APPLIED ↔
      (promotionThreshold ≤ s.liveSamples + n ∧
        s.driftSeverity ≠ Severity.CRITICAL ∧
        integrityValid { s with liveSamples := s.liveSamples + n } = true)) ∧
    (warmupScenario.promoted = true ∧
      warmupScenario.state.status = Status.APPLIED ∧
      warmupScenario.liveSamples = 30) := by
  refine ⟨?_, by decide⟩
  have hcond : (s.status == Status.WARMUP && decide (1 ≤ n)) = true := by
    simp [hW, hn]
  by_cases hp :
      promotionEligible { s with liveSamples := s.liveSamples + n } = true
  · have hs : (incrementSamples s n).state.status = Status.APPLIED := by
      simp only [incrementSamples]
      rw [if_pos hcond, if_pos hp]
    rw [promotionEligible_eq_true_iff] at hp
    simp only [hs, eq_self_iff_true, true_iff]
    exact ⟨hp.2.1, hp.2.2.1, hp.2.2.2⟩
  · have hs : (incrementSamples s n).state.status = Status.WARMUP := by
      simp only [incrementSamples]
      rw [if_pos hcond, if_neg hp]
      exact hW
    rw [promotionEligible_eq_true_iff] at hp
    simp only [hs]
    constructor
    · intro hcontra
      exact absurd hcontra (by decide)
    · intro hrhs
      exact absurd ⟨hW, hrhs.1, hrhs.2.1, hrhs.2.2⟩ hp

/-- Witness for C5: a concrete WARMUP state promotes when one increment
reaches the threshold. -/
theorem warmup_promotion_iff_witness :
    (incrementSamples warmupSample 30).state.status = Status.APPLIED := by
  have h := warmup_promotion_iff warmupSample 30 rfl (by decide)
  exact h.1.mpr (by decide)

/-- C6: applyConstitution on an APPLIED state forces WARMUP with
liveSamples 0 and records the new hash; on any non-APPLIED state it changes
nothing but the constitutionHash. -/
theorem applyConstitution_cases (s : LifecycleState) (h : String) :
    (s.status = Status.APPLIED →
      (applyConstitution s h).state.status = Status.WARMUP ∧
      (applyConstitution s h).state.liveSamples = 0 ∧
      (applyConstitution s h).state.constitutionHash = h ∧
      (applyConstitution s h).applied = true) ∧
    (s.status ≠ Status.APPLIED →
      (applyConstitution s h).state = { s with constitutionHash := h } ∧
      (applyConstitution s h).applied = false) := by
  constructor
  · intro hA
    simp [applyConstitution, hA]
  · intro hA
    simp [applyConstitution, hA]

/-- Witness for C6 at a concrete APPLIED state and a concrete SIMULATION
state. -/
theorem applyConstitution_cases_witness :
    ((applyConstitution appliedSample "h2").state.status = Status.WARMUP ∧
      (applyConstitution appliedSample "h2").state.liveSamples = 0 ∧
      (applyConstitution appliedSample "h2").state.constitutionHash = "h2" ∧
      (applyConstitution appliedSample "h2").applied = true) ∧
    ((applyConstitution initState "h2").state =
        { initState with constitutionHash := "h2" } ∧
      (applyConstitution initState "h2").applied = false) :=
  ⟨(applyConstitution_cases appliedSample "h2").1 rfl,
   (applyConstitution_cases initState "h2").2 (by decide)⟩

/-- C2: for every environment, asset and starting state, runDailyPipeline
returns exactly 11 StepResult entries, named in the fixed documented order,
each with a non-negative ms. -/
theorem runDailyPipeline_step_shape (env : PipelineEnv) (asset : String)
    (s : LifecycleState) :
    (runDailyPipeline env asset s).steps.length = 11 ∧
    (runDailyPipeline env asset s).steps.map StepResult.name = stepNames ∧
    ∀ r ∈ (runDailyPipeline env asset s).steps, 0 ≤ r.ms := by
  have h := runSteps_shape env ((List.range stepNames.length).zip stepNames) s
  refine ⟨?_, ?_, fun r _ => Nat.zero_le r.ms⟩
  · show (runSteps env ((List.range stepNames.length).zip stepNames) s).1.length = 11
    rw [h.2]
    rfl
  · show (runSteps env ((List.range stepNames.length).zip stepNames) s).1.map
        StepResult.name = stepNames
    rw [h.1]
    rfl

/-- Witness for C2 at a concrete environment, asset and state. -/
theorem runDailyPipeline_step_shape_witness :
    (runDailyPipeline sampleEnv "BTC" initState).steps.length = 11 ∧
    (runDailyPipeline sampleEnv "BTC" initState).steps.map StepResult.name =
      stepNames :=
  ⟨(runDailyPipeline_step_shape sampleEnv "BTC" initState).1,
   (runDailyPipeline_step_shape sampleEnv "BTC" initState).2.1⟩

/-- C7: the lifecycle.transition field of a daily-run result is present iff
the before and after statuses differ, and when present it is the string
describing the change. -/
theorem runDailyPipeline_transition_iff (env : PipelineEnv) (asset : String)
    (s : LifecycleState) :
    ((runDailyPipeline env asset s).lifecycle.transition.isSome = true ↔
      (runDailyPipeline env asset s).lifecycle.before.status ≠
        (runDailyPipeline env asset s).lifecycle.after.status) ∧
    ∀ t, (runDailyPipeline env asset s).lifecycle.transition = some t →
      t = describeTransition
            (runDailyPipeline env asset s).lifecycle.before.status
            (runDailyPipeline env asset s).lifecycle.after.status := by
  by_cases h : s.status = (runSteps env ((List.range stepNames.length).zip
      stepNames) s).2.status
  · refine ⟨?_, ?_⟩
    · simp [runDailyPipeline, h]
    · intro t ht
      simp [runDailyPipeline, h] at ht
  · refine ⟨?_, ?_⟩
    · simp [runDailyPipeline, h]
    · intro t ht
      simp [runDailyPipeline, h] at ht ⊢
      exact ht.symm

/-- Witness for C7: in the concrete sample run the status changes (the
auto-warmup step fires), so the transition field is present. -/
theorem runDailyPipeline_transition_iff_witness :
    (runDailyPipeline sampleEnv "BTC" initState).lifecycle.before.status ≠
      (runDailyPipeline sampleEnv "BTC" initState).lifecycle.after.status :=
  (runDailyPipeline_transition_iff sampleEnv "BTC" initState).1.mp (by decide)

/-- C8: an asset identifier outside the enumerated set is rejected by the
daily-run endpoint with HTTP 400, ok = false and the message naming the
valid assets, before any mutation: the stored lifecycle state is unchanged
and no run result is produced. -/
theorem runNow_invalid_asset (asset : String) (env : PipelineEnv)
    (store : Option LifecycleState)
    (h : validAssets.contains asset = false) :
    (runNowHandler asset env store).1 =
      ⟨400, false, some "asset must be BTC or SPX"⟩ ∧
    (runNowHandler asset env store).2.1 = store ∧
    (runNowHandler asset env store).2.2 = none := by
  have h2 : ¬(asset ∈ validAssets) := by simpa using h
  simp [runNowHandler, h2]

/-- Witness for C8 at the concrete invalid identifier used by the test. -/
theorem runNow_invalid_asset_witness :
    (runNowHandler "INVALID" sampleEnv none).1 =
      ⟨400, false, some "asset must be BTC or SPX"⟩ ∧
    (runNowHandler "INVALID" sampleEnv none).2.1 = none ∧
    (runNowHandler "INVALID" sampleEnv none).2.2 = none :=
  runNow_invalid_asset "INVALID" sampleEnv none (by decide)

/-- C9: backend_test.py's main constructs LifecycleAPITester, a global name
the module never defines (the tester class is FractalAPITester), so main
raises NameError before any test runs. -/
theorem main_raises_nameError :
    mainRun = Except.error (PyError.nameError "LifecycleAPITester") ∧
    backendTestGlobals.contains "LifecycleAPITester" = false ∧
    backendTestGlobals.contains "FractalAPITester" = true := by
  refine ⟨rfl, rfl, rfl⟩

/-- C10: FractalAPITester.log_result with passed = False appends to
self.failed_tests, an attribute __init__ never assigns (it assigns
self.issues), so it raises AttributeError; with passed = True it never
raises and increments tests_run and tests_passed by exactly one, leaving
the other attributes unchanged. -/
theorem log_result_spec (st : TesterState) (testName : String)
    (h : st.failed_tests = none) :
    log_result st testName false =
      Except.error (PyError.attributeError "failed_tests") ∧
    log_result st testName true =
      Except.ok ⟨st.tests_run + 1, st.tests_passed + 1, st.issues,
        st.failed_tests⟩ ∧
    testerInit.failed_tests = none := by
  refine ⟨?_, rfl, rfl⟩
  simp [log_result, h]

/-- Witness for C10 at a freshly constructed tester. -/
theorem log_result_spec_witness :
    log_result testerInit "GET /api/lifecycle/state" false =
      Except.error (PyError.attributeError "failed_tests") ∧
    log_result testerInit "GET /api/lifecycle/state" true =
      Except.ok ⟨1, 1, [], none⟩ ∧
    testerInit.failed_tests = none :=
  log_result_spec testerInit "GET /api/lifecycle/state" rfl
